import Mathlib

/-!
Verification of the symptom-to-condition matching engine of the HealthVerse
application (`src/app/symptom-checker.tsx`).

The engine is embedded shallowly:

* `Disease` mirrors the `Disease` interface (name, description, severity,
  category, `commonSymptoms` fingerprint, recommendations, `prevalentIn`).
* `INDIAN_DISEASES` is the static knowledge base, translated field by field.
* `mkPrediction` is the body of the `.map` in `predictDiseases`
  (lines 246-257): it filters the fingerprint by membership in the
  selected-symptom list and computes
  `matchPercentage = (matchingSymptoms.length / selectedSymptoms.length) * 100`,
  with rational numbers standing in for JavaScript floats.
* `sortByScoreDesc` models `Array.prototype.sort` with comparator
  `(a, b) => b.matchPercentage - a.matchPercentage`: a stable descending
  sort by score (ECMAScript sorts are stable, so the stable insertion sort
  below computes the same sequence).
* `matchOpt` is the pipeline `map / filter (> minMatchPercent) / sort /
  slice (0, maxResults)` with the two hard-coded policy literals (30 and 5)
  lifted to parameters, as the specification's `options` does; `predictList`
  instantiates them with the source's literals 30 and 5.
* `matchE` / `predictDiseases` add the empty-selection guard of lines
  236-239: the alert-and-early-return is modelled as an `InvalidInput`
  error, every other call returns the full ranked list.
* `toggleSymptom` mirrors lines 227-233.
-/

inductive Severity where
  | Mild | Moderate | Severe
deriving DecidableEq, Repr, Inhabited

inductive DiseaseCategory where
  | Infectious | Chronic | Acute | Genetic
deriving DecidableEq, Repr, Inhabited

structure Disease where
  name : String
  description : String
  severity : Severity
  category : DiseaseCategory
  commonSymptoms : List String
  recommendations : List String
  prevalentIn : List String
deriving DecidableEq, Repr, Inhabited

/-- The static knowledge base `INDIAN_DISEASES` (lines 51-142). -/
def INDIAN_DISEASES : List Disease := [
  { name := "Malaria"
    description := "Mosquito-borne infectious disease common in tropical regions of India"
    severity := .Severe
    category := .Infectious
    commonSymptoms := ["fever", "chills", "headache", "nausea", "vomiting", "body_ache", "fatigue"]
    recommendations := ["Immediate medical attention", "Blood test for confirmation", "Antimalarial medication"]
    prevalentIn := ["West Bengal", "Odisha", "Jharkhand", "Chhattisgarh", "Madhya Pradesh"] },
  { name := "Dengue Fever"
    description := "Viral infection transmitted by Aedes mosquitoes, common during monsoons"
    severity := .Severe
    category := .Infectious
    commonSymptoms := ["high_fever", "severe_headache", "body_ache", "rash", "nausea", "vomiting"]
    recommendations := ["Immediate hospitalization if severe", "Platelet count monitoring", "Adequate fluid intake"]
    prevalentIn := ["Delhi", "Kerala", "Tamil Nadu", "Punjab", "Haryana"] },
  { name := "Tuberculosis (TB)"
    description := "Bacterial infection primarily affecting lungs, highly prevalent in India"
    severity := .Severe
    category := .Infectious
    commonSymptoms := ["persistent_cough", "fever", "night_sweats", "weight_loss", "chest_pain", "fatigue"]
    recommendations := ["DOTS therapy", "Sputum test", "Chest X-ray", "Complete isolation initially"]
    prevalentIn := ["All states", "Higher in urban slums", "Maharashtra", "Uttar Pradesh"] },
  { name := "Typhoid"
    description := "Bacterial infection caused by Salmonella typhi, common due to poor sanitation"
    severity := .Moderate
    category := .Infectious
    commonSymptoms := ["prolonged_fever", "headache", "abdominal_pain", "diarrhea", "rose_spots", "weakness"]
    recommendations := ["Antibiotic treatment", "Widal test", "Complete rest", "Proper hygiene"]
    prevalentIn := ["Bihar", "West Bengal", "Uttar Pradesh", "Delhi", "Rajasthan"] },
  { name := "Diabetes Mellitus"
    description := "Metabolic disorder with high blood sugar levels, epidemic in India"
    severity := .Moderate
    category := .Chronic
    commonSymptoms := ["frequent_urination", "excessive_thirst", "unexplained_weight_loss", "fatigue", "blurred_vision"]
    recommendations := ["Blood sugar monitoring", "Dietary changes", "Regular exercise", "Medication compliance"]
    prevalentIn := ["Kerala", "Tamil Nadu", "Punjab", "Goa", "Delhi"] },
  { name := "Hypertension"
    description := "High blood pressure, silent killer affecting millions in India"
    severity := .Moderate
    category := .Chronic
    commonSymptoms := ["headache", "dizziness", "chest_pain", "shortness_of_breath", "nosebleeds"]
    recommendations := ["Regular BP monitoring", "Low sodium diet", "Weight management", "Stress reduction"]
    prevalentIn := ["Kerala", "Punjab", "Tamil Nadu", "Delhi", "Maharashtra"] },
  { name := "Jaundice (Hepatitis)"
    description := "Liver condition causing yellowing of skin and eyes"
    severity := .Moderate
    category := .Infectious
    commonSymptoms := ["yellow_skin", "yellow_eyes", "dark_urine", "pale_stool", "abdominal_pain", "fatigue"]
    recommendations := ["Liver function tests", "Rest and hydration", "Avoid alcohol", "Vaccination for Hepatitis B"]
    prevalentIn := ["West Bengal", "Bihar", "Assam", "Uttar Pradesh", "Delhi"] },
  { name := "Chikungunya"
    description := "Viral disease transmitted by mosquitoes causing severe joint pain"
    severity := .Moderate
    category := .Infectious
    commonSymptoms := ["fever", "severe_joint_pain", "muscle_pain", "headache", "rash", "fatigue"]
    recommendations := ["Pain management", "Adequate rest", "Physiotherapy", "Mosquito control measures"]
    prevalentIn := ["Karnataka", "Maharashtra", "Rajasthan", "Delhi", "Andhra Pradesh"] },
  { name := "Gastroenteritis"
    description := "Stomach flu causing inflammation of digestive tract"
    severity := .Mild
    category := .Infectious
    commonSymptoms := ["diarrhea", "vomiting", "abdominal_cramps", "nausea", "fever", "dehydration"]
    recommendations := ["Oral rehydration therapy", "BRAT diet", "Avoid dairy products", "Probiotics"]
    prevalentIn := ["All states during monsoon", "Higher in areas with poor sanitation"] },
  { name := "Common Cold"
    description := "Viral respiratory infection affecting upper respiratory tract"
    severity := .Mild
    category := .Infectious
    commonSymptoms := ["runny_nose", "sneezing", "cough", "sore_throat", "mild_fever", "body_ache"]
    recommendations := ["Rest and fluids", "Steam inhalation", "Warm saltwater gargling", "Vitamin C"]
    prevalentIn := ["All states", "More common during winter months"] }
]

/-- The per-disease record built inside the `.map` of `predictDiseases`:
the spread `...disease` plus `matchPercentage` and `matchingSymptoms`. -/
structure Prediction extends Disease where
  matchPercentage : ℚ
  matchingSymptoms : List String
deriving DecidableEq, Repr

/-- Lines 246-257 of `predictDiseases`:
`matchingSymptoms = disease.commonSymptoms.filter(s => selectedSymptoms.includes(s))`,
`matchPercentage = (matchingSymptoms.length / selectedSymptoms.length) * 100`. -/
def mkPrediction (selectedSymptoms : List String) (disease : Disease) : Prediction :=
  let matchingSymptoms := disease.commonSymptoms.filter (fun s => s ∈ selectedSymptoms)
  { toDisease := disease
    matchPercentage := ((matchingSymptoms.length : ℚ) / (selectedSymptoms.length : ℚ)) * 100
    matchingSymptoms := matchingSymptoms }

/-- Stable insertion of one element into a list that is to be kept sorted by
descending `matchPercentage`: the inserted element (which comes earlier in
the original order) is placed before every element of equal score. -/
def insertScoreDesc (x : Prediction) : List Prediction → List Prediction
  | [] => [x]
  | y :: ys =>
    if y.matchPercentage ≤ x.matchPercentage then x :: y :: ys
    else y :: insertScoreDesc x ys

/-- `Array.prototype.sort((a, b) => b.matchPercentage - a.matchPercentage)`:
a stable sort descending by `matchPercentage` (ECMAScript `sort` is stable). -/
def sortByScoreDesc : List Prediction → List Prediction
  | [] => []
  | x :: xs => insertScoreDesc x (sortByScoreDesc xs)

/-- The result pipeline of `predictDiseases` (lines 245-260) with the
knowledge base and the two hard-coded policy literals (`> 30`, `slice(0, 5)`)
as parameters, as the specification's `options` presents them. -/
def matchOpt (selectedSymptoms : List String) (knowledgeBase : List Disease)
    (minMatchPercent : ℚ) (maxResults : ℕ) : List Prediction :=
  ((sortByScoreDesc
    ((knowledgeBase.map (mkPrediction selectedSymptoms)).filter
      (fun p => minMatchPercent < p.matchPercentage))).take maxResults)

/-- The pipeline with the source's literal policy values: threshold 30, top 5. -/
def predictList (selectedSymptoms : List String) (knowledgeBase : List Disease) :
    List Prediction :=
  matchOpt selectedSymptoms knowledgeBase 30 5

inductive MatchError where
  | invalidInput
deriving DecidableEq, Repr

/-- The guarded entry point: lines 236-239 reject an empty selection (the
alert plus early return is modelled as an `InvalidInput` error and no
result); otherwise the full ranked list is produced. -/
def matchE (selectedSymptoms : List String) (knowledgeBase : List Disease)
    (minMatchPercent : ℚ) (maxResults : ℕ) : Except MatchError (List Prediction) :=
  if selectedSymptoms = [] then .error .invalidInput
  else .ok (matchOpt selectedSymptoms knowledgeBase minMatchPercent maxResults)

/-- `predictDiseases` as invoked by the screen: the static knowledge base
and the hard-coded threshold 30 and bound 5. -/
def predictDiseases (selectedSymptoms : List String) :
    Except MatchError (List Prediction) :=
  matchE selectedSymptoms INDIAN_DISEASES 30 5

/-- Lines 227-233: toggling a symptom removes it when present, appends it
when absent. -/
def toggleSymptom (prev : List String) (symptomId : String) : List String :=
  if symptomId ∈ prev then prev.filter (fun id => id ≠ symptomId)
  else prev ++ [symptomId]

/-- A synthetic condition violating the data-model invariant: its symptom
fingerprint is empty. -/
def emptyFingerprintDisease : Disease :=
  { name := "Empty"
    description := ""
    severity := .Mild
    category := .Acute
    commonSymptoms := []
    recommendations := []
    prevalentIn := [] }

/-- A one-symptom condition used to evaluate the matcher on a concrete call. -/
def feverOnlyDisease : Disease :=
  { name := "FeverOnly"
    description := ""
    severity := .Mild
    category := .Acute
    commonSymptoms := ["fever"]
    recommendations := []
    prevalentIn := [] }

/- ────────────────────── helper lemmas ────────────────────── -/

theorem insertScoreDesc_perm (x : Prediction) (l : List Prediction) :
    List.Perm (insertScoreDesc x l) (x :: l) := by
  induction l with
  | nil => rfl
  | cons y ys ih =>
    by_cases h : y.matchPercentage ≤ x.matchPercentage
    · simp [insertScoreDesc, h]
    · simpa [insertScoreDesc, h] using
        ((ih.cons y).trans (List.Perm.swap x y ys))

theorem sortByScoreDesc_perm (l : List Prediction) :
    List.Perm (sortByScoreDesc l) l := by
  induction l with
  | nil => rfl
  | cons x xs ih =>
    exact (insertScoreDesc_perm x (sortByScoreDesc xs)).trans (ih.cons x)

theorem mem_matchOpt {p : Prediction} {ss : List String} {kb : List Disease}
    {t : ℚ} {k : ℕ} (hp : p ∈ matchOpt ss kb t k) :
    (∃ d ∈ kb, p = mkPrediction ss d) ∧ t < p.matchPercentage := by
  have h1 : p ∈ sortByScoreDesc
      ((kb.map (mkPrediction ss)).filter (fun q => t < q.matchPercentage)) :=
    List.take_subset _ _ hp
  have h2 : p ∈ (kb.map (mkPrediction ss)).filter (fun q => t < q.matchPercentage) :=
    (sortByScoreDesc_perm _).subset h1
  have h3 := List.mem_filter.mp h2
  refine ⟨?_, by simpa using h3.2⟩
  rcases List.mem_map.mp h3.1 with ⟨d, hd, hdp⟩
  exact ⟨d, hd, hdp.symm⟩


theorem matchOpt_feverOnly :
    matchOpt ["fever"] [feverOnlyDisease] 30 5 =
      [mkPrediction ["fever"] feverOnlyDisease] := by
  norm_num [matchOpt, List.filter_cons, mkPrediction, feverOnlyDisease,
    sortByScoreDesc, insertScoreDesc]

theorem mem_matchOpt_feverOnly :
    mkPrediction ["fever"] feverOnlyDisease ∈
      matchOpt ["fever"] [feverOnlyDisease] 30 5 := by
  rw [matchOpt_feverOnly]
  exact List.mem_singleton.mpr rfl

theorem length_filter_mem_eq_inter_card (ss fp : List String) (hfp : fp.Nodup) :
    ((fp.filter (fun s => s ∈ ss)).length : ℕ) =
      (ss.toFinset ∩ fp.toFinset).card := by
  have hnd : (fp.filter (fun s => s ∈ ss)).Nodup := hfp.filter _
  have hcard := List.toFinset_card_of_nodup hnd
  have hfinset : (fp.filter (fun s => s ∈ ss)).toFinset =
      ss.toFinset ∩ fp.toFinset := by
    ext a
    simp [List.mem_toFinset, List.mem_filter, and_comm]
  rw [hfinset] at hcard
  exact hcard.symm

theorem score_le_100 (ss : List String) (d : Disease)
    (hne : ss ≠ []) (hfp : d.commonSymptoms.Nodup) :
    (mkPrediction ss d).matchPercentage ≤ 100 := by
  have hlen : (d.commonSymptoms.filter (fun s => s ∈ ss)).length ≤ ss.length := by
    have h1 := length_filter_mem_eq_inter_card ss d.commonSymptoms hfp
    have h2 : (ss.toFinset ∩ d.commonSymptoms.toFinset).card ≤ ss.toFinset.card :=
      Finset.card_le_card Finset.inter_subset_left
    have h3 : ss.toFinset.card ≤ ss.length := ss.toFinset_card_le
    omega
  have hpos : (0 : ℚ) < (ss.length : ℚ) := by
    have : 0 < ss.length := List.length_pos.mpr hne
    exact_mod_cast this
  show ((d.commonSymptoms.filter (fun s => s ∈ ss)).length : ℚ) / (ss.length : ℚ) * 100 ≤ 100
  have hdiv : ((d.commonSymptoms.filter (fun s => s ∈ ss)).length : ℚ) / (ss.length : ℚ) ≤ 1 := by
    rw [div_le_one hpos]
    exact_mod_cast hlen
  nlinarith

theorem pairwise_insertScoreDesc {x : Prediction} {l : List Prediction}
    (hl : l.Pairwise (fun a b => b.matchPercentage ≤ a.matchPercentage)) :
    (insertScoreDesc x l).Pairwise
      (fun a b => b.matchPercentage ≤ a.matchPercentage) := by
  induction l with
  | nil => simp [insertScoreDesc]
  | cons y ys ih =>
    rw [List.pairwise_cons] at hl
    obtain ⟨hy, hys⟩ := hl
    simp only [insertScoreDesc]
    by_cases h : y.matchPercentage ≤ x.matchPercentage
    · rw [if_pos h]
      refine List.pairwise_cons.mpr ⟨?_, List.pairwise_cons.mpr ⟨hy, hys⟩⟩
      intro b hb
      rcases List.mem_cons.mp hb with rfl | hb
      · exact h
      · exact le_trans (hy b hb) h
    · rw [if_neg h]
      refine List.pairwise_cons.mpr ⟨?_, ih hys⟩
      intro b hb
      have hb' : b ∈ x :: ys := (insertScoreDesc_perm x ys).subset hb
      rcases List.mem_cons.mp hb' with rfl | hb'
      · exact le_of_not_le h
      · exact hy b hb'

theorem sortByScoreDesc_pairwise (l : List Prediction) :
    (sortByScoreDesc l).Pairwise
      (fun a b => b.matchPercentage ≤ a.matchPercentage) := by
  induction l with
  | nil => simp [sortByScoreDesc]
  | cons x xs ih => exact pairwise_insertScoreDesc ih

theorem filter_insertScoreDesc (x : Prediction) (l : List Prediction) (s : ℚ) :
    (insertScoreDesc x l).filter (fun p => p.matchPercentage = s) =
      if x.matchPercentage = s
      then x :: l.filter (fun p => p.matchPercentage = s)
      else l.filter (fun p => p.matchPercentage = s) := by
  induction l with
  | nil =>
    by_cases hx : x.matchPercentage = s <;> simp [insertScoreDesc, hx]
  | cons y ys ih =>
    simp only [insertScoreDesc]
    by_cases h : y.matchPercentage ≤ x.matchPercentage
    · rw [if_pos h]
      by_cases hx : x.matchPercentage = s <;> simp [List.filter_cons, hx]
    · rw [if_neg h]
      by_cases hx : x.matchPercentage = s
      · have hy : ¬ y.matchPercentage = s := by
          intro hy
          exact h (le_of_eq (hy.trans hx.symm))
        simp [List.filter_cons, ih, hx, hy]
      · by_cases hy : y.matchPercentage = s <;>
          simp [List.filter_cons, ih, hx, hy]

theorem filter_sortByScoreDesc (l : List Prediction) (s : ℚ) :
    (sortByScoreDesc l).filter (fun p => p.matchPercentage = s) =
      l.filter (fun p => p.matchPercentage = s) := by
  induction l with
  | nil => rfl
  | cons x xs ih =>
    simp only [sortByScoreDesc]
    rw [filter_insertScoreDesc]
    by_cases hx : x.matchPercentage = s <;> simp [List.filter_cons, hx, ih]

/- ────────────────────── claim theorems ────────────────────── -/

/-- C1: for every non-empty selected-symptom set and every condition, the
matcher's score is `100 * |selectedSymptoms ∩ symptomFingerprint| /
|selectedSymptoms|` (denominator the input set), and a condition whose
fingerprint is a superset of the input scores exactly 100. -/
theorem claim_C1 (ss : List String) (d : Disease) (hne : ss ≠ [])
    (hss : ss.Nodup) (hfp : d.commonSymptoms.Nodup) :
    (mkPrediction ss d).matchPercentage =
      100 * ((ss.toFinset ∩ d.commonSymptoms.toFinset).card : ℚ) / (ss.length : ℚ) ∧
    (ss ⊆ d.commonSymptoms → (mkPrediction ss d).matchPercentage = 100) := by
  have hlen := length_filter_mem_eq_inter_card ss d.commonSymptoms hfp
  have hscore : (mkPrediction ss d).matchPercentage =
      ((ss.toFinset ∩ d.commonSymptoms.toFinset).card : ℚ) / (ss.length : ℚ) * 100 := by
    show ((d.commonSymptoms.filter (fun s => s ∈ ss)).length : ℚ) /
        (ss.length : ℚ) * 100 = _
    rw [hlen]
  constructor
  · rw [hscore]; ring
  · intro hsub
    have hinter : ss.toFinset ∩ d.commonSymptoms.toFinset = ss.toFinset := by
      apply Finset.inter_eq_left.mpr
      intro a ha
      rw [List.mem_toFinset] at *
      exact hsub ha
    have hpos : ((ss.length : ℚ)) ≠ 0 := by
      have h0 : 0 < ss.length := List.length_pos.mpr hne
      exact_mod_cast Nat.pos_iff_ne_zero.mp h0
    rw [hscore, hinter, List.toFinset_card_of_nodup hss, div_self hpos, one_mul]

/-- C1 witness: the spec's concrete scenario — selected symptoms
fever, chills, headache against the Malaria fingerprint score exactly 100. -/
theorem claim_C1_witness :
    (mkPrediction ["fever", "chills", "headache"] (INDIAN_DISEASES.getD 0 default)).matchPercentage =
      100 * (((["fever", "chills", "headache"] : List String).toFinset ∩
        (INDIAN_DISEASES.getD 0 default).commonSymptoms.toFinset).card : ℚ) /
        ((["fever", "chills", "headache"] : List String).length : ℚ) ∧
    (mkPrediction ["fever", "chills", "headache"] (INDIAN_DISEASES.getD 0 default)).matchPercentage = 100 :=
  ⟨(claim_C1 ["fever", "chills", "headache"] (INDIAN_DISEASES.getD 0 default)
      (by decide) (by decide) (by decide)).1,
   (claim_C1 ["fever", "chills", "headache"] (INDIAN_DISEASES.getD 0 default)
      (by decide) (by decide) (by decide)).2 (by decide)⟩

/-- C2: with set-valued inputs (duplicate-free symptom lists, as the data
model's `set of Symptom.id` prescribes), every returned result has
`minMatchPercent < matchScore ≤ 100`; conditions scoring at or below the
threshold are discarded. -/
theorem claim_C2 (ss : List String) (kb : List Disease) (t : ℚ) (k : ℕ)
    (hne : ss ≠ []) (hkb : ∀ d ∈ kb, d.commonSymptoms.Nodup) :
    ∀ p ∈ matchOpt ss kb t k, t < p.matchPercentage ∧ p.matchPercentage ≤ 100 := by
  intro p hp
  obtain ⟨⟨d, hd, rfl⟩, ht⟩ := mem_matchOpt hp
  exact ⟨ht, score_le_100 ss d hne (hkb d hd)⟩

/-- C2 witness: a concrete returned result with the source's threshold 30
and bound 5 has a score in (30, 100]. -/
theorem claim_C2_witness :
    30 < (mkPrediction ["fever"] feverOnlyDisease).matchPercentage ∧
    (mkPrediction ["fever"] feverOnlyDisease).matchPercentage ≤ 100 :=
  claim_C2 ["fever"] [feverOnlyDisease] 30 5 (by decide) (by decide)
    (mkPrediction ["fever"] feverOnlyDisease) mem_matchOpt_feverOnly

/-- C3: the output is sorted non-increasingly by `matchPercentage`, and for
each score value the results carrying that score occur as a sublist of the
mapped knowledge base, i.e. ties are resolved by knowledge-base position
(the sort is stable). -/
theorem claim_C3 (ss : List String) (kb : List Disease) (t : ℚ) (k : ℕ) :
    (matchOpt ss kb t k).Pairwise
      (fun a b => b.matchPercentage ≤ a.matchPercentage) ∧
    ∀ s : ℚ, List.Sublist
      ((matchOpt ss kb t k).filter (fun p => p.matchPercentage = s))
      ((kb.map (mkPrediction ss)).filter (fun p => p.matchPercentage = s)) := by
  constructor
  · exact List.Pairwise.sublist (List.take_sublist _ _) (sortByScoreDesc_pairwise _)
  · intro s
    have h1 : List.Sublist
        ((matchOpt ss kb t k).filter (fun p => p.matchPercentage = s))
        ((sortByScoreDesc
          ((kb.map (mkPrediction ss)).filter
            (fun p => t < p.matchPercentage))).filter
              (fun p => p.matchPercentage = s)) :=
      List.Sublist.filter _ (List.take_sublist _ _)
    rw [filter_sortByScoreDesc] at h1
    have h2 : List.Sublist
        (((kb.map (mkPrediction ss)).filter
          (fun p => t < p.matchPercentage)).filter
            (fun p => p.matchPercentage = s))
        ((kb.map (mkPrediction ss)).filter (fun p => p.matchPercentage = s)) :=
      List.Sublist.filter _ (List.filter_sublist _)
    exact h1.trans h2

/-- C7: the result is truncated after ranking to at most `maxResults`
entries (5 in the source's `slice(0, 5)`). -/
theorem claim_C7 (ss : List String) (kb : List Disease) (t : ℚ) (k : ℕ) :
    (matchOpt ss kb t k).length ≤ k ∧ (predictList ss kb).length ≤ 5 :=
  ⟨List.length_take_le k _, List.length_take_le 5 _⟩

/-- C8: a non-empty selection matched against an empty knowledge base
returns the empty sequence, not an error. -/
theorem claim_C8 (ss : List String) (t : ℚ) (k : ℕ) (hne : ss ≠ []) :
    matchE ss [] t k = Except.ok [] := by
  rw [matchE, if_neg hne]
  simp [matchOpt, sortByScoreDesc]

/-- C8 witness. -/
theorem claim_C8_witness : matchE ["fever"] [] 30 5 = Except.ok [] :=
  claim_C8 ["fever"] 30 5 (by decide)

/-- C9: the matcher is deterministic — equal selections, knowledge bases and
options give identical result sequences. -/
theorem claim_C9 (ss₁ ss₂ : List String) (kb₁ kb₂ : List Disease)
    (t₁ t₂ : ℚ) (k₁ k₂ : ℕ)
    (hss : ss₁ = ss₂) (hkb : kb₁ = kb₂) (ht : t₁ = t₂) (hk : k₁ = k₂) :
    matchE ss₁ kb₁ t₁ k₁ = matchE ss₂ kb₂ t₂ k₂ ∧
    predictDiseases ss₁ = predictDiseases ss₂ := by
  subst hss hkb ht hk
  exact ⟨rfl, rfl⟩

/-- C9 witness. -/
theorem claim_C9_witness :
    matchE ["fever"] INDIAN_DISEASES 30 5 = matchE ["fever"] INDIAN_DISEASES 30 5 ∧
    predictDiseases ["fever"] = predictDiseases ["fever"] :=
  claim_C9 ["fever"] ["fever"] INDIAN_DISEASES INDIAN_DISEASES 30 30 5 5
    rfl rfl rfl rfl

/-- C4 counterexample: the source performs no knowledge-base validation.
A condition with an empty fingerprint is accepted by the matcher without any
`InvalidKnowledgeBase` error: the call succeeds with `ok`, the condition
scores 0 and is silently dropped by the threshold filter. -/
theorem claim_C4_counterexample :
    matchE ["fever"] [emptyFingerprintDisease] 30 5 = Except.ok [] ∧
    (mkPrediction ["fever"] emptyFingerprintDisease).matchPercentage = 0 ∧
    emptyFingerprintDisease.commonSymptoms = [] := by
  have hscore : (mkPrediction ["fever"] emptyFingerprintDisease).matchPercentage = 0 := by
    simp [mkPrediction, emptyFingerprintDisease]
  refine ⟨?_, hscore, rfl⟩
  rw [matchE, if_neg (by simp : ¬(["fever"] : List String) = [])]
  congr 1
  norm_num [matchOpt, List.filter_cons, hscore, sortByScoreDesc]

/-- C4 (amended): the source has no load-time validation, but every
condition of the static knowledge base has a non-empty fingerprint, so no
entry can silently always-score-zero; and a condition with an empty
fingerprint would score 0 and never appear in the output for any
non-negative threshold. -/
theorem claim_C4 :
    (∀ d ∈ INDIAN_DISEASES, d.commonSymptoms ≠ []) ∧
    (∀ (ss : List String) (d : Disease), d.commonSymptoms = [] →
      (mkPrediction ss d).matchPercentage = 0 ∧
      ∀ (kb : List Disease) (t : ℚ) (k : ℕ), 0 ≤ t →
        mkPrediction ss d ∉ matchOpt ss kb t k) := by
  constructor
  · decide
  · intro ss d hd
    have hscore : (mkPrediction ss d).matchPercentage = 0 := by
      show ((d.commonSymptoms.filter (fun s => s ∈ ss)).length : ℚ) /
          (ss.length : ℚ) * 100 = 0
      rw [hd]
      simp
    refine ⟨hscore, ?_⟩
    intro kb t k ht hmem
    have := (mem_matchOpt hmem).2
    rw [hscore] at this
    exact absurd (lt_of_le_of_lt ht this) (lt_irrefl 0)

/-- C4 witness: the amended statement evaluated at the first knowledge-base
entry and at a concrete empty-fingerprint condition. -/
theorem claim_C4_witness :
    (INDIAN_DISEASES.getD 0 default).commonSymptoms ≠ [] ∧
    (mkPrediction ["fever"] emptyFingerprintDisease).matchPercentage = 0 ∧
    (mkPrediction ["fever"] emptyFingerprintDisease) ∉
      matchOpt ["fever"] INDIAN_DISEASES 30 5 :=
  ⟨claim_C4.1 (INDIAN_DISEASES.getD 0 default) (by decide),
   (claim_C4.2 ["fever"] emptyFingerprintDisease rfl).1,
   (claim_C4.2 ["fever"] emptyFingerprintDisease rfl).2 INDIAN_DISEASES 30 5 (by norm_num)⟩

/-- C5: an empty selection is rejected with `InvalidInput` before any
scoring (the alert plus early return of lines 236-239), and every
non-empty selection yields the full ranked result — there is no partial
failure. -/
theorem claim_C5 :
    predictDiseases [] = Except.error MatchError.invalidInput ∧
    (∀ (kb : List Disease) (t : ℚ) (k : ℕ),
      matchE [] kb t k = Except.error MatchError.invalidInput) ∧
    (∀ (ss : List String) (kb : List Disease) (t : ℚ) (k : ℕ), ss ≠ [] →
      matchE ss kb t k = Except.ok (matchOpt ss kb t k)) := by
  refine ⟨rfl, fun kb t k => rfl, fun ss kb t k h => ?_⟩
  rw [matchE, if_neg h]

/-- C5 witness: a non-empty call returns the full ranked list. -/
theorem claim_C5_witness :
    matchE ["fever"] INDIAN_DISEASES 30 5 =
      Except.ok (matchOpt ["fever"] INDIAN_DISEASES 30 5) :=
  claim_C5.2.2 ["fever"] INDIAN_DISEASES 30 5 (by decide)

/-- C6: every returned result's `matchingSymptoms` is exactly the filter of
its condition's fingerprint by the selected symptoms, hence (as sets) the
intersection of input and fingerprint, and a subset of both. -/
theorem claim_C6 (ss : List String) (kb : List Disease) (t : ℚ) (k : ℕ)
    (p : Prediction) (hp : p ∈ matchOpt ss kb t k) :
    p.matchingSymptoms = p.toDisease.commonSymptoms.filter (fun s => s ∈ ss) ∧
    p.matchingSymptoms.toFinset =
      ss.toFinset ∩ p.toDisease.commonSymptoms.toFinset ∧
    (∀ x ∈ p.matchingSymptoms, x ∈ ss) ∧
    (∀ x ∈ p.matchingSymptoms, x ∈ p.toDisease.commonSymptoms) := by
  obtain ⟨⟨d, hd, rfl⟩, ht⟩ := mem_matchOpt hp
  refine ⟨rfl, ?_, ?_, ?_⟩
  · ext a
    simp [mkPrediction, List.mem_toFinset, List.mem_filter, and_comm]
  · intro x hx
    have hx' : x ∈ d.commonSymptoms.filter (fun s => s ∈ ss) := hx
    rw [List.mem_filter] at hx'
    simpa using hx'.2
  · intro x hx
    have hx' : x ∈ d.commonSymptoms.filter (fun s => s ∈ ss) := hx
    exact List.mem_of_mem_filter hx'

/-- C6 witness: evaluated on a concrete returned result and the concrete
matched symptom it contains. -/
theorem claim_C6_witness :
    (mkPrediction ["fever"] feverOnlyDisease).matchingSymptoms =
      (mkPrediction ["fever"] feverOnlyDisease).toDisease.commonSymptoms.filter
        (fun s => s ∈ (["fever"] : List String)) ∧
    (mkPrediction ["fever"] feverOnlyDisease).matchingSymptoms.toFinset =
      (["fever"] : List String).toFinset ∩
        (mkPrediction ["fever"] feverOnlyDisease).toDisease.commonSymptoms.toFinset ∧
    "fever" ∈ (["fever"] : List String) ∧
    "fever" ∈ (mkPrediction ["fever"] feverOnlyDisease).toDisease.commonSymptoms :=
  ⟨(claim_C6 ["fever"] [feverOnlyDisease] 30 5
      (mkPrediction ["fever"] feverOnlyDisease) mem_matchOpt_feverOnly).1,
   (claim_C6 ["fever"] [feverOnlyDisease] 30 5
      (mkPrediction ["fever"] feverOnlyDisease) mem_matchOpt_feverOnly).2.1,
   (claim_C6 ["fever"] [feverOnlyDisease] 30 5
      (mkPrediction ["fever"] feverOnlyDisease) mem_matchOpt_feverOnly).2.2.1
      "fever" (by decide),
   (claim_C6 ["fever"] [feverOnlyDisease] 30 5
      (mkPrediction ["fever"] feverOnlyDisease) mem_matchOpt_feverOnly).2.2.2
      "fever" (by decide)⟩

/-- C10: toggling preserves duplicate-freeness of the selection, toggling
the same id twice restores the selection's membership, and for a
duplicate-free selection (and set-valued fingerprint) the score computed
with the selection's length as denominator never exceeds 100. -/
theorem claim_C10 (prev : List String) (sid : String) :
    (prev.Nodup → (toggleSymptom prev sid).Nodup) ∧
    (∀ x, x ∈ toggleSymptom (toggleSymptom prev sid) sid ↔ x ∈ prev) ∧
    (∀ d : Disease, prev.Nodup → d.commonSymptoms.Nodup → prev ≠ [] →
      (mkPrediction prev d).matchPercentage ≤ 100) := by
  refine ⟨?_, ?_, fun d _ hfp hne => score_le_100 prev d hne hfp⟩
  · intro hnd
    rw [toggleSymptom]
    by_cases h : sid ∈ prev
    · rw [if_pos h]
      exact hnd.filter _
    · rw [if_neg h]
      simp [List.nodup_append, hnd, h]
  · intro x
    by_cases h : sid ∈ prev
    · have e1 : toggleSymptom prev sid = prev.filter (fun i => i ≠ sid) := if_pos h
      have h2 : sid ∉ prev.filter (fun i => i ≠ sid) := by simp
      rw [e1, toggleSymptom, if_neg h2]
      simp only [List.mem_append, List.mem_filter, List.mem_singleton,
        ne_eq, decide_not, Bool.not_eq_eq_eq_not, Bool.not_true,
        decide_eq_false_iff_not]
      constructor
      · rintro (⟨hx, _⟩ | rfl)
        · exact hx
        · exact h
      · intro hx
        by_cases hxs : x = sid
        · right; exact hxs
        · left; exact ⟨hx, hxs⟩
    · have e1 : toggleSymptom prev sid = prev ++ [sid] := if_neg h
      have h2 : sid ∈ prev ++ [sid] := by simp
      rw [e1, toggleSymptom, if_pos h2]
      rw [List.filter_append]
      have h3 : prev.filter (fun i => i ≠ sid) = prev := by
        apply List.filter_eq_self.mpr
        intro a ha
        simp only [ne_eq, decide_eq_true_eq]
        rintro rfl
        exact h ha
      have h4 : ([sid] : List String).filter (fun i => i ≠ sid) = [] := by simp
      rw [h3, h4, List.append_nil]

/-- C10 witness: a concrete double toggle and a concrete bounded score. -/
theorem claim_C10_witness :
    (toggleSymptom ["fever"] "chills").Nodup ∧
    ("fever" ∈ toggleSymptom (toggleSymptom ["fever"] "chills") "chills" ↔
      "fever" ∈ (["fever"] : List String)) ∧
    (mkPrediction ["fever"] feverOnlyDisease).matchPercentage ≤ 100 :=
  ⟨(claim_C10 ["fever"] "chills").1 (by decide),
   (claim_C10 ["fever"] "chills").2.1 "fever",
   (claim_C10 ["fever"] "chills").2.2 feverOnlyDisease (by decide) (by decide) (by decide)⟩
